import Mathlib

/-!
# Verification of the ivy cross-framework tensor layer

Shallow embedding of the repository's code, structured by source file:

* `TorchSparse` — `src/ivy/functional/backends/torch/experimental/sparse_array.py`
* `IvyLayers` — `src/ivy/functional/ivy/layers.py`
* `JaxBackend` — `src/ivy/functional/backends/jax/utility.py`

Native library primitives (torch tensor constructors, `jnp.all`, exp inside
softmax, the random draw inside dropout) are embedded either structurally or as
explicit function parameters of the embedded code, since the repository treats
them as opaque pass-throughs.
-/

namespace TorchSparse

/-- The torch tensor layouts that `sparse_array.py` inspects
(`torch.strided` stands for any non-sparse layout). -/
inductive Layout where
  | strided
  | sparse_coo
  | sparse_csr
  | sparse_csc
  | sparse_bsc
  | sparse_bsr
deriving DecidableEq, Repr

/-- A torch tensor as seen by `sparse_array.py`: the repository only ever reads
the layout tag and the sparse component buffers (`indices()`, `crow_indices()`,
`col_indices()`, `ccol_indices()`, `row_indices()`, `values()`, `size()`), so
the embedding records exactly those.  COO index tensors are two-dimensional;
the compressed/plain index tensors are one-dimensional; the numeric contents of
`values` are opaque to the repository and embedded as an integer buffer. -/
structure TorchTensor where
  layout : Layout
  coo_indices : List (List Int)
  crow_indices : List Int
  col_indices : List Int
  ccol_indices : List Int
  row_indices : List Int
  values : List Int
  size : List Nat
deriving DecidableEq, Repr

/-- Native `torch.sparse_coo_tensor(indices=..., values=..., size=...)`:
packages the components under the COO layout. -/
def sparse_coo_tensor (indices : List (List Int)) (values : List Int)
    (size : List Nat) : TorchTensor :=
  ⟨Layout.sparse_coo, indices, [], [], [], [], values, size⟩

/-- Native `torch.sparse_csr_tensor(crow_indices=..., col_indices=...,
values=..., size=...)`. -/
def sparse_csr_tensor (crow_indices col_indices : List Int) (values : List Int)
    (size : List Nat) : TorchTensor :=
  ⟨Layout.sparse_csr, [], crow_indices, col_indices, [], [], values, size⟩

/-- Native `torch.sparse_csc_tensor(ccol_indices=..., row_indices=...,
values=..., size=...)`. -/
def sparse_csc_tensor (ccol_indices row_indices : List Int) (values : List Int)
    (size : List Nat) : TorchTensor :=
  ⟨Layout.sparse_csc, [], [], [], ccol_indices, row_indices, values, size⟩

/-- `is_native_sparse_array` (sparse_array.py line 18): membership of the
layout in `[torch.sparse_coo, torch.sparse_csr, torch.sparse_csc]`.  Note BSC
and BSR are absent from the list. -/
def is_native_sparse_array (x : TorchTensor) : Bool :=
  [Layout.sparse_coo, Layout.sparse_csr, Layout.sparse_csc].contains x.layout

/-- Modelled from the spec: `_is_data_not_indices_values_and_shape` is imported
from `ivy/functional/ivy/experimental/sparse_array.py`, which is not among the
source files.  Per the spec's description of the construction API it decides
that the caller passed a ready-made `data` array rather than explicit
indices/values/shape components. -/
def _is_data_not_indices_values_and_shape
    (data : Option TorchTensor)
    (coo_indices : Option (List (List Int)))
    (csr_crow_indices csr_col_indices : Option (List Int))
    (csc_ccol_indices csc_row_indices : Option (List Int))
    (bsc_ccol_indices bsc_row_indices : Option (List Int))
    (bsr_crow_indices bsr_col_indices : Option (List Int))
    (values : Option (List Int))
    (dense_shape : Option (List Nat)) : Bool :=
  data.isSome && coo_indices.isNone
    && csr_crow_indices.isNone && csr_col_indices.isNone
    && csc_ccol_indices.isNone && csc_row_indices.isNone
    && bsc_ccol_indices.isNone && bsc_row_indices.isNone
    && bsr_crow_indices.isNone && bsr_col_indices.isNone
    && values.isNone && dense_shape.isNone

/-- Modelled from the spec: `_is_coo` (imported from
`ivy/functional/ivy/experimental/sparse_array.py`, not among the source files)
holds when the keyword arguments identify exactly the COO format: COO indices,
values and dense shape are given and no other format's indices are. -/
def _is_coo
    (coo_indices : Option (List (List Int)))
    (csr_crow_indices csr_col_indices : Option (List Int))
    (csc_ccol_indices csc_row_indices : Option (List Int))
    (bsc_ccol_indices bsc_row_indices : Option (List Int))
    (bsr_crow_indices bsr_col_indices : Option (List Int))
    (values : Option (List Int))
    (dense_shape : Option (List Nat)) : Bool :=
  coo_indices.isSome
    && csr_crow_indices.isNone && csr_col_indices.isNone
    && csc_ccol_indices.isNone && csc_row_indices.isNone
    && bsc_ccol_indices.isNone && bsc_row_indices.isNone
    && bsr_crow_indices.isNone && bsr_col_indices.isNone
    && values.isSome && dense_shape.isSome

/-- Modelled from the spec: `_is_csr`, as `_is_coo` but for the CSR
components. -/
def _is_csr
    (coo_indices : Option (List (List Int)))
    (csr_crow_indices csr_col_indices : Option (List Int))
    (csc_ccol_indices csc_row_indices : Option (List Int))
    (bsc_ccol_indices bsc_row_indices : Option (List Int))
    (bsr_crow_indices bsr_col_indices : Option (List Int))
    (values : Option (List Int))
    (dense_shape : Option (List Nat)) : Bool :=
  coo_indices.isNone
    && csr_crow_indices.isSome && csr_col_indices.isSome
    && csc_ccol_indices.isNone && csc_row_indices.isNone
    && bsc_ccol_indices.isNone && bsc_row_indices.isNone
    && bsr_crow_indices.isNone && bsr_col_indices.isNone
    && values.isSome && dense_shape.isSome

/-- Modelled from the spec: `_is_csc`, as `_is_coo` but for the CSC
components. -/
def _is_csc
    (coo_indices : Option (List (List Int)))
    (csr_crow_indices csr_col_indices : Option (List Int))
    (csc_ccol_indices csc_row_indices : Option (List Int))
    (bsc_ccol_indices bsc_row_indices : Option (List Int))
    (bsr_crow_indices bsr_col_indices : Option (List Int))
    (values : Option (List Int))
    (dense_shape : Option (List Nat)) : Bool :=
  coo_indices.isNone
    && csr_crow_indices.isNone && csr_col_indices.isNone
    && csc_ccol_indices.isSome && csc_row_indices.isSome
    && bsc_ccol_indices.isNone && bsc_row_indices.isNone
    && bsr_crow_indices.isNone && bsr_col_indices.isNone
    && values.isSome && dense_shape.isSome

/-- Modelled from the spec: `_is_bsc`, as `_is_coo` but for the BSC
components. -/
def _is_bsc
    (coo_indices : Option (List (List Int)))
    (csr_crow_indices csr_col_indices : Option (List Int))
    (csc_ccol_indices csc_row_indices : Option (List Int))
    (bsc_ccol_indices bsc_row_indices : Option (List Int))
    (bsr_crow_indices bsr_col_indices : Option (List Int))
    (values : Option (List Int))
    (dense_shape : Option (List Nat)) : Bool :=
  coo_indices.isNone
    && csr_crow_indices.isNone && csr_col_indices.isNone
    && csc_ccol_indices.isNone && csc_row_indices.isNone
    && bsc_ccol_indices.isSome && bsc_row_indices.isSome
    && bsr_crow_indices.isNone && bsr_col_indices.isNone
    && values.isSome && dense_shape.isSome

/-- Modelled from the spec: `_is_bsr`, as `_is_coo` but for the BSR
components. -/
def _is_bsr
    (coo_indices : Option (List (List Int)))
    (csr_crow_indices csr_col_indices : Option (List Int))
    (csc_ccol_indices csc_row_indices : Option (List Int))
    (bsc_ccol_indices bsc_row_indices : Option (List Int))
    (bsr_crow_indices bsr_col_indices : Option (List Int))
    (values : Option (List Int))
    (dense_shape : Option (List Nat)) : Bool :=
  coo_indices.isNone
    && csr_crow_indices.isNone && csr_col_indices.isNone
    && csc_ccol_indices.isNone && csc_row_indices.isNone
    && bsc_ccol_indices.isNone && bsc_row_indices.isNone
    && bsr_crow_indices.isSome && bsr_col_indices.isSome
    && values.isSome && dense_shape.isSome

/-- The component consistency checks `_verify_coo_components` etc. are imported
from `ivy/functional/ivy/experimental/sparse_array.py` (not among the source
files); each raises on inconsistent components.  The embedding abstracts the
five of them as boolean predicates bundled here and passed to
`native_sparse_array`, which turns a `false` verdict into an error, exactly as
a raise would propagate. -/
structure VerifyFns where
  verify_coo : List (List Int) → List Int → List Nat → Bool
  verify_csr : List Int → List Int → List Int → List Nat → Bool
  verify_csc : List Int → List Int → List Int → List Nat → Bool
  verify_bsc : List Int → List Int → List Int → List Nat → Bool
  verify_bsr : List Int → List Int → List Int → List Nat → Bool

/-- `native_sparse_array` (sparse_array.py lines 22-162).  The result is
`Except`: `.error` embeds a raised exception (from `ivy.assertions.check_true`
or a failed `_verify_*` check), `.ok none` embeds the Python function falling
off its end and returning `None`, `.ok (some t)` embeds returning tensor `t`.
Each branch mirrors the source's `if`/`elif` chain in order; the inner
`match`es extract the `Option` components that the source accesses directly
(the wildcard rows are unreachable because the corresponding `_is_*` recognizer
requires those components to be present). -/
def native_sparse_array (V : VerifyFns)
    (data : Option TorchTensor)
    (coo_indices : Option (List (List Int)))
    (csr_crow_indices csr_col_indices : Option (List Int))
    (csc_ccol_indices csc_row_indices : Option (List Int))
    (bsc_ccol_indices bsc_row_indices : Option (List Int))
    (bsr_crow_indices bsr_col_indices : Option (List Int))
    (values : Option (List Int))
    (dense_shape : Option (List Nat)) : Except String (Option TorchTensor) :=
  if _is_data_not_indices_values_and_shape data coo_indices
      csr_crow_indices csr_col_indices csc_ccol_indices csc_row_indices
      bsc_ccol_indices bsc_row_indices bsr_crow_indices bsr_col_indices
      values dense_shape then
    match data with
    | some d =>
        if is_native_sparse_array d then Except.ok (some d)
        else Except.error "not a sparse array"
    | none => Except.error "not a sparse array"
  else if _is_coo coo_indices
      csr_crow_indices csr_col_indices csc_ccol_indices csc_row_indices
      bsc_ccol_indices bsc_row_indices bsr_crow_indices bsr_col_indices
      values dense_shape then
    match coo_indices, values, dense_shape with
    | some ci, some v, some ds =>
        if V.verify_coo ci v ds then
          Except.ok (some (sparse_coo_tensor ci v ds))
        else Except.error "invalid coo components"
    | _, _, _ => Except.error "invalid coo components"
  else if _is_csr coo_indices
      csr_crow_indices csr_col_indices csc_ccol_indices csc_row_indices
      bsc_ccol_indices bsc_row_indices bsr_crow_indices bsr_col_indices
      values dense_shape then
    match csr_crow_indices, csr_col_indices, values, dense_shape with
    | some cr, some co, some v, some ds =>
        if V.verify_csr cr co v ds then
          Except.ok (some (sparse_csr_tensor cr co v ds))
        else Except.error "invalid csr components"
    | _, _, _, _ => Except.error "invalid csr components"
  else if _is_csc coo_indices
      csr_crow_indices csr_col_indices csc_ccol_indices csc_row_indices
      bsc_ccol_indices bsc_row_indices bsr_crow_indices bsr_col_indices
      values dense_shape then
    match csc_ccol_indices, csc_row_indices, values, dense_shape with
    | some cc, some ri, some v, some ds =>
        if V.verify_csc cc ri v ds then
          Except.ok (some (sparse_csc_tensor cc ri v ds))
        else Except.error "invalid csc components"
    | _, _, _, _ => Except.error "invalid csc components"
  else if _is_bsc coo_indices
      csr_crow_indices csr_col_indices csc_ccol_indices csc_row_indices
      bsc_ccol_indices bsc_row_indices bsr_crow_indices bsr_col_indices
      values dense_shape then
    match bsc_ccol_indices, bsc_row_indices, values, dense_shape with
    | some cc, some ri, some v, some ds =>
        -- source: `_verify_bsc_components(...)` and then no return statement
        if V.verify_bsc cc ri v ds then Except.ok none
        else Except.error "invalid bsc components"
    | _, _, _, _ => Except.error "invalid bsc components"
  else if _is_bsr coo_indices
      csr_crow_indices csr_col_indices csc_ccol_indices csc_row_indices
      bsc_ccol_indices bsc_row_indices bsr_crow_indices bsr_col_indices
      values dense_shape then
    match bsr_crow_indices, bsr_col_indices, values, dense_shape with
    | some cr, some co, some v, some ds =>
        -- source: `_verify_bsr_components(...)` and then no return statement
        if V.verify_bsr cr co v ds then Except.ok none
        else Except.error "invalid bsr components"
    | _, _, _, _ => Except.error "invalid bsr components"
  else
    Except.ok none

/-- The dictionary of index tensors returned by
`native_sparse_array_to_indices_values_and_shape`; each constructor's field
names are the dictionary's string keys in the source. -/
inductive IndicesDict where
  | coo (coo_indices : List (List Int))
  | csr (csr_crow_indices csr_col_indices : List Int)
  | csc (csc_ccol_indices csc_row_indices : List Int)
  | bsc (bsc_ccol_indices bsc_row_indices : List Int)
  | bsr (bsr_crow_indices bsr_col_indices : List Int)
deriving DecidableEq, Repr

/-- `native_sparse_array_to_indices_values_and_shape` (sparse_array.py lines
165-193).  `coalesce` is torch's native COO coalescing, passed in as an opaque
parameter; `.error` embeds the raised `ivy.exceptions.IvyException`. -/
def native_sparse_array_to_indices_values_and_shape
    (coalesce : TorchTensor → TorchTensor) (x : TorchTensor) :
    Except String (IndicesDict × List Int × List Nat) :=
  if x.layout = Layout.sparse_coo then
    let x := coalesce x
    Except.ok (IndicesDict.coo x.coo_indices, x.values, x.size)
  else if x.layout = Layout.sparse_csr then
    Except.ok (IndicesDict.csr x.crow_indices x.col_indices, x.values, x.size)
  else if x.layout = Layout.sparse_csc then
    Except.ok (IndicesDict.csc x.ccol_indices x.row_indices, x.values, x.size)
  else if x.layout = Layout.sparse_bsc then
    Except.ok (IndicesDict.bsc x.ccol_indices x.row_indices, x.values, x.size)
  else if x.layout = Layout.sparse_bsr then
    Except.ok (IndicesDict.bsr x.crow_indices x.col_indices, x.values, x.size)
  else
    Except.error "not a sparse COO/CSR/CSC/BSC/BSR Tensor"

/-- A `VerifyFns` bundle whose five checks all pass, for evaluating the
construction paths on concrete component inputs. -/
def trivialVerify : VerifyFns :=
  ⟨fun _ _ _ => true, fun _ _ _ _ => true, fun _ _ _ _ => true,
   fun _ _ _ _ => true, fun _ _ _ _ => true⟩

end TorchSparse

namespace IvyLayers

/-!
Embedding of `src/ivy/functional/ivy/layers.py`.  A tensor of shape
`[batch, p, q]` is embedded as `Fin b → Fin p → Fin q → α` with the time axis
of LSTM inputs embedded as a `List` (matching `ivy.unstack`/`ivy.concat`
along axis `-2`).  The dispatched elementwise/contraction primitives
(`ivy.einsum` at the two subscript strings used, `ivy.softmax`, `ivy.where`,
`ivy.matmul`, `ivy.split`) are embedded at their native meanings, with the
transcendental kernels (`exp` inside softmax, `ivy.sigmoid`, `ivy.tanh`) and
the float-format constant `np.finfo(dtype).max` passed in as opaque
parameters.
-/

variable {α : Type} [LinearOrderedField α]
variable {b nq nk d n m : ℕ}

/-- `ivy.einsum("... q f, ... k f -> ... q k", q, k)` (layers.py line 137):
batched contraction of the feature axis. -/
def einsum_qf_kf_to_qk (q : Fin b → Fin nq → Fin d → α)
    (k : Fin b → Fin nk → Fin d → α) : Fin b → Fin nq → Fin nk → α :=
  fun bi qi ki => ∑ fi, q bi qi fi * k bi ki fi

/-- `ivy.einsum("... q k, ... k f -> ... q f", attn, v)` (layers.py line 152):
batched contraction of the key axis. -/
def einsum_qk_kf_to_qf (attn : Fin b → Fin nq → Fin nk → α)
    (v : Fin b → Fin nk → Fin d → α) : Fin b → Fin nq → Fin d → α :=
  fun bi qi fi => ∑ ki, attn bi qi ki * v bi ki fi

/-- `ivy.softmax(s, -1)`: exponentiate-and-normalise along the last axis,
with the exponential kernel `e` passed in as a parameter. -/
def softmax (e : α → α) (s : Fin b → Fin nq → Fin nk → α) :
    Fin b → Fin nq → Fin nk → α :=
  fun bi qi ki => e (s bi qi ki) / ∑ kj, e (s bi qi kj)

/-- `scaled_dot_product_attention` (layers.py lines 112-152).  `finfo_max`
embeds `np.finfo(np.dtype(ivy.dtype(sim))).max`; the mask path is
`ivy.where(ivy.logical_not(mask), -ivy.ones_like(sim) * finfo_max, sim)`. -/
def scaled_dot_product_attention (e : α → α) (finfo_max : α)
    (q : Fin b → Fin nq → Fin d → α) (k : Fin b → Fin nk → Fin d → α)
    (v : Fin b → Fin nk → Fin d → α) (scale : α)
    (mask : Option (Fin b → Fin nq → Fin nk → Bool)) :
    Fin b → Fin nq → Fin d → α :=
  let sim : Fin b → Fin nq → Fin nk → α :=
    fun bi qi ki => einsum_qf_kf_to_qk q k bi qi ki * scale
  let sim2 : Fin b → Fin nq → Fin nk → α :=
    match mask with
    | none => sim
    | some mk =>
        fun bi qi ki =>
          if !(mk bi qi ki) then -(1 : α) * finfo_max else sim bi qi ki
  let attn := softmax e sim2
  einsum_qk_kf_to_qf attn v

/-- Textbook batched matrix product, for the specification side of the
attention claim. -/
def matmulBatched {p r s : ℕ} (a : Fin b → Fin p → Fin r → α)
    (c : Fin b → Fin r → Fin s → α) : Fin b → Fin p → Fin s → α :=
  fun bi i j => ∑ l, a bi i l * c bi l j

/-- Transpose of the last two axes, for the specification side (`kᵀ`). -/
def transposeLast2 (k : Fin b → Fin nk → Fin d → α) :
    Fin b → Fin d → Fin nk → α :=
  fun bi fi ki => k bi ki fi

/-- Elementwise scaling by a scalar, for the specification side. -/
def scalarMul (scale : α) (s : Fin b → Fin nq → Fin nk → α) :
    Fin b → Fin nq → Fin nk → α :=
  fun bi qi ki => scale * s bi qi ki

/-- Specification-side masking: every entry whose mask entry is false is
replaced by `fill`. -/
def masked_fill (mk : Fin b → Fin nq → Fin nk → Bool) (fill : α)
    (s : Fin b → Fin nq → Fin nk → α) : Fin b → Fin nq → Fin nk → α :=
  fun bi qi ki => if mk bi qi ki then s bi qi ki else fill

/-- The textbook attention formula `softmax(scale * q·kᵀ, last axis) · v`,
written with the specification-side operators. -/
def attention_textbook (e : α → α) (q : Fin b → Fin nq → Fin d → α)
    (k : Fin b → Fin nk → Fin d → α) (v : Fin b → Fin nk → Fin d → α)
    (scale : α) : Fin b → Fin nq → Fin d → α :=
  matmulBatched (softmax e (scalarMul scale (matmulBatched q (transposeLast2 k)))) v

/-- `dropout`'s scaling factor `1 / (1 - prob)` (layers.py line 105). -/
def dropout_scale_factor (prob : α) : α := 1 / (1 - prob)

/-- `dropout` (layers.py lines 79-106) over an arbitrary element index type
`ι`; the native uniform draw `ivy.random_uniform(shape=x.shape, ...)` is
passed in as the function `u` (each sample lies in `[0, 1)`). -/
def dropout {ι : Type} (u x : ι → α) (prob : α) (scale : Bool) : ι → α :=
  let x1 : ι → α := fun i => if u i < prob then 0 else x i
  if scale then fun i => x1 i * dropout_scale_factor prob else x1

/-- The index of gate `g`'s entry `i` inside a fused `[.., 4*out]` axis: the
source's `ivy.split(w, 4, -1)` makes gate `g` the slice `[g*out, (g+1)*out)`. -/
def gidx (g : Fin 4) (i : Fin m) : Fin (4 * m) :=
  ⟨g.1 * m + i.1, by
    have hi : i.1 < m := i.2
    have hg : g.1 + 1 ≤ 4 := g.2
    have h1 : g.1 * m + i.1 < (g.1 + 1) * m := by
      rw [Nat.succ_mul]; omega
    have h2 : (g.1 + 1) * m ≤ 4 * m := Nat.mul_le_mul_right m hg
    omega⟩

/-- `ivy.concat(l, -2)` on a list of time slices: the native concatenation,
which every backend rejects on an empty list of arrays. -/
def ivy_concat {β : Type} (l : List β) : Except String (List β) :=
  match l with
  | [] => Except.error "cannot concatenate an empty list of arrays"
  | _ => Except.ok l

/-- `ivy.reshape(y, batch_shape + [timesteps, -1])` (layers.py lines
551-554) applied to the flattened matmul-plus-bias result, viewed as the
list of its `timesteps` time slices.  For `timesteps >= 1` the `-1`
dimension is determined and the reshape yields the `[batch, t, 4*out]`
tensor, i.e. the slice list itself; for `timesteps = 0` the input has zero
elements, the product of the known dimensions is zero, and the `-1`
dimension is ambiguous, so every backend's native reshape raises. -/
def ivy_reshape_time_major {β : Type} (l : List β) : Except String (List β) :=
  match l with
  | [] =>
      Except.error "cannot reshape a 0-element tensor with ambiguous dimension -1"
  | _ => Except.ok l

/-- The source's unrolled time loop (layers.py lines 568-591), recursing over
the per-timestep slices of the precomputed input-kernel product `Wi_x`.  Each
step splits `matmul(h, Wh) + recurrent_bias` into the four gate slices,
applies the gate formulas, and appends the new hidden state.  `sig` and `th`
embed `ivy.sigmoid` and `ivy.tanh`.  Returns the list of appended hidden
states and the final cell state. -/
def lstm_loop (sig th : α → α) (Wh : Fin m → Fin (4 * m) → α)
    (rbf : Fin (4 * m) → α) :
    List (Fin b → Fin (4 * m) → α) → (Fin b → Fin m → α) →
    (Fin b → Fin m → α) → List (Fin b → Fin m → α) × (Fin b → Fin m → α)
  | [], _, ct => ([], ct)
  | wxt :: rest, ht, ct =>
    let Wh_htm1 : Fin b → Fin (4 * m) → α :=
      fun bi j => (∑ i, ht bi i * Wh i j) + rbf j
    let it : Fin b → Fin m → α :=
      fun bi i => sig (wxt bi (gidx 0 i) + Wh_htm1 bi (gidx 0 i))
    let ft : Fin b → Fin m → α :=
      fun bi i => sig (wxt bi (gidx 1 i) + Wh_htm1 bi (gidx 1 i))
    let gt : Fin b → Fin m → α :=
      fun bi i => th (wxt bi (gidx 2 i) + Wh_htm1 bi (gidx 2 i))
    let ot : Fin b → Fin m → α :=
      fun bi i => sig (wxt bi (gidx 3 i) + Wh_htm1 bi (gidx 3 i))
    let ct2 : Fin b → Fin m → α :=
      fun bi i => ft bi i * ct bi i + it bi i * gt bi i
    let ht2 : Fin b → Fin m → α :=
      fun bi i => ot bi i * th (ct2 bi i)
    let r := lstm_loop sig th Wh rbf rest ht2 ct2
    (ht2 :: r.1, r.2)

/-- `lstm_update` (layers.py lines 513-593).  The input `x` of shape
`[batch, t, in]` is embedded as its list of `t` time slices (the form
`ivy.unstack(..., axis=-2)` reduces it to); the source's flatten to
`(-1, in)` and `ivy.matmul` with the fused kernel plus bias are embedded as
the per-slice batched product they compute, the reshape of that result back
to `batch_shape + [timesteps, -1]` is `ivy_reshape_time_major` — which, as
in every backend, raises when `timesteps = 0` because the `-1` dimension of
a 0-element tensor is ambiguous — and the source's split of `Wi_x` into four
before the loop is embedded as the equivalent slice reads `gidx g i` inside
the loop.  The final `ivy.concat(hts_list, -2)` fails on an empty list.
Both failure points make the result `Except`. -/
def lstm_update (sig th : α → α) (x : List (Fin b → Fin n → α))
    (init_h init_c : Fin b → Fin m → α)
    (kernel : Fin n → Fin (4 * m) → α)
    (recurrent_kernel : Fin m → Fin (4 * m) → α)
    (bias recurrent_bias : Option (Fin (4 * m) → α)) :
    Except String (List (Fin b → Fin m → α) × (Fin b → Fin m → α)) :=
  let biasf : Fin (4 * m) → α :=
    fun j => match bias with | some bb => bb j | none => 0
  let rbf : Fin (4 * m) → α :=
    fun j => match recurrent_bias with | some rb => rb j | none => 0
  match (ivy_reshape_time_major
      (x.map (fun xt => fun bi j =>
        (∑ fi, xt bi fi * kernel fi j) + biasf j)) :
      Except String (List (Fin b → Fin (4 * m) → α))) with
  | Except.error e => Except.error e
  | Except.ok Wi_x =>
    let r := lstm_loop sig th recurrent_kernel rbf Wi_x init_h init_c
    match ivy_concat r.1 with
    | Except.ok hts => Except.ok (hts, r.2)
    | Except.error e => Except.error e

/-- Specification side: gate `g`'s slice of a fused `[in, 4*out]` kernel,
i.e. the per-gate weight matrix `W_g`. -/
def gate_kernel {p : ℕ} (W : Fin p → Fin (4 * m) → α) (g : Fin 4) :
    Fin p → Fin m → α :=
  fun fi i => W fi (gidx g i)

/-- Specification side: gate `g`'s slice of a fused `[4*out]` bias vector. -/
def gate_bias (bf : Fin (4 * m) → α) (g : Fin 4) : Fin m → α :=
  fun i => bf (gidx g i)

/-- Specification side: one step of the standard LSTM recurrence
`i = sigmoid(Wi_i·x + b_i + Wh_i·h + rb_i)`, `f`, `g`, `o` likewise,
`c' = f*c + i*g`, `h' = o*tanh(c')`, written with the per-gate sliced
weights. -/
def lstm_step_spec (sig th : α → α)
    (kernel : Fin n → Fin (4 * m) → α)
    (recurrent_kernel : Fin m → Fin (4 * m) → α)
    (biasf rbf : Fin (4 * m) → α)
    (xt : Fin b → Fin n → α) (h c : Fin b → Fin m → α) :
    (Fin b → Fin m → α) × (Fin b → Fin m → α) :=
  let pre : Fin 4 → Fin b → Fin m → α := fun g bi i =>
    ((∑ fi, xt bi fi * gate_kernel kernel g fi i) + gate_bias biasf g i)
      + ((∑ l, h bi l * gate_kernel recurrent_kernel g l i) + gate_bias rbf g i)
  let it : Fin b → Fin m → α := fun bi i => sig (pre 0 bi i)
  let ft : Fin b → Fin m → α := fun bi i => sig (pre 1 bi i)
  let gt : Fin b → Fin m → α := fun bi i => th (pre 2 bi i)
  let ot : Fin b → Fin m → α := fun bi i => sig (pre 3 bi i)
  let c2 : Fin b → Fin m → α := fun bi i => ft bi i * c bi i + it bi i * gt bi i
  let h2 : Fin b → Fin m → α := fun bi i => ot bi i * th (c2 bi i)
  (h2, c2)

/-- Specification side: the LSTM recurrence unrolled over the time axis,
collecting every hidden state and the last cell state. -/
def lstm_spec (sig th : α → α)
    (kernel : Fin n → Fin (4 * m) → α)
    (recurrent_kernel : Fin m → Fin (4 * m) → α)
    (biasf rbf : Fin (4 * m) → α) :
    List (Fin b → Fin n → α) → (Fin b → Fin m → α) → (Fin b → Fin m → α) →
    List (Fin b → Fin m → α) × (Fin b → Fin m → α)
  | [], _, c => ([], c)
  | xt :: rest, h, c =>
    let s := lstm_step_spec sig th kernel recurrent_kernel biasf rbf xt h c
    let r := lstm_spec sig th kernel recurrent_kernel biasf rbf rest s.1 s.2
    (s.1 :: r.1, r.2)

end IvyLayers

namespace Dispatch

/-!
Embedding of the convolution wrappers of `src/ivy/functional/ivy/layers.py`
(lines 248-507).  Array values are an opaque type `T`; `strides`/`dilations`
can be ints or tuples in the source and are embedded as an opaque type `S`;
`padding` and `data_format` are strings; `output_shape` is optional.
-/

/-- Modelled from the spec: a backend module, as produced by
`current_framework` (defined in `ivy/framework_handler.py`, not among the
source files) — "a module exposing the same function names" as the unified
API, here the seven convolution entry points that layers.py dispatches to. -/
structure Framework (T S : Type) where
  conv1d : T → T → S → String → String → S → T
  conv1d_transpose : T → T → S → String → Option (List Nat) → String → S → T
  conv2d : T → T → S → String → String → S → T
  conv2d_transpose : T → T → S → String → Option (List Nat) → String → S → T
  depthwise_conv2d : T → T → S → String → String → S → T
  conv3d : T → T → S → String → String → S → T
  conv3d_transpose : T → T → S → String → Option (List Nat) → String → S → T

variable {T S : Type}

/-- `conv1d` (layers.py lines 248-290): forwards to
`_cur_framework(x).conv1d(x, filters, strides, padding, data_format,
dilations)`.  The dispatcher `_cur_framework`, already applied to the global
backend configuration, is the parameter `cur`. -/
def conv1d (cur : T → Framework T S) (x filters : T) (strides : S)
    (padding data_format : String) (dilations : S) : T :=
  (cur x).conv1d x filters strides padding data_format dilations

/-- `conv1d_transpose` (layers.py lines 293-324). -/
def conv1d_transpose (cur : T → Framework T S) (x filters : T) (strides : S)
    (padding : String) (output_shape : Option (List Nat))
    (data_format : String) (dilations : S) : T :=
  (cur x).conv1d_transpose x filters strides padding output_shape
    data_format dilations

/-- `conv2d` (layers.py lines 327-354). -/
def conv2d (cur : T → Framework T S) (x filters : T) (strides : S)
    (padding data_format : String) (dilations : S) : T :=
  (cur x).conv2d x filters strides padding data_format dilations

/-- `conv2d_transpose` (layers.py lines 357-388). -/
def conv2d_transpose (cur : T → Framework T S) (x filters : T) (strides : S)
    (padding : String) (output_shape : Option (List Nat))
    (data_format : String) (dilations : S) : T :=
  (cur x).conv2d_transpose x filters strides padding output_shape
    data_format dilations

/-- `depthwise_conv2d` (layers.py lines 391-418). -/
def depthwise_conv2d (cur : T → Framework T S) (x filters : T) (strides : S)
    (padding data_format : String) (dilations : S) : T :=
  (cur x).depthwise_conv2d x filters strides padding data_format dilations

/-- `conv3d` (layers.py lines 422-473). -/
def conv3d (cur : T → Framework T S) (x filters : T) (strides : S)
    (padding data_format : String) (dilations : S) : T :=
  (cur x).conv3d x filters strides padding data_format dilations

/-- `conv3d_transpose` (layers.py lines 476-507). -/
def conv3d_transpose (cur : T → Framework T S) (x filters : T) (strides : S)
    (padding : String) (output_shape : Option (List Nat))
    (data_format : String) (dilations : S) : T :=
  (cur x).conv3d_transpose x filters strides padding output_shape
    data_format dilations

end Dispatch

namespace JaxBackend

/-!
Embedding of `src/ivy/functional/backends/jax/utility.py`.  `JaxArray` is an
opaque type `T`; the axis argument `Optional[Union[int, Tuple[int],
List[int]]]` is an opaque type `A`; the native reductions `jnp.all` and
`jnp.any` are opaque parameters.
-/

variable {T A : Type}

/-- `all` (utility.py lines 9-15): `ret = jnp.all(x, axis, keepdims=keepdims);
return ret`. -/
def all (jnp_all : T → A → Bool → T) (x : T) (axis : A) (keepdims : Bool) : T :=
  let ret := jnp_all x axis keepdims
  ret

/-- `any` (utility.py lines 18-24): `ret = jnp.any(x, axis, keepdims=keepdims);
return ret`. -/
def any (jnp_any : T → A → Bool → T) (x : T) (axis : A) (keepdims : Bool) : T :=
  let ret := jnp_any x axis keepdims
  ret

end JaxBackend

open TorchSparse in
/-- C1: the claim says a call identifying any of the five supported formats
returns the tensor built by the matching native constructor and never returns
`None`.  Evaluated at a BSC call and at a BSR call whose component checks
pass, `native_sparse_array` returns `None` (`Except.ok none`): the source's
BSC and BSR branches run their `_verify_*` check and then fall off the end of
the function without a `return` statement. -/
theorem C1_bsc_bsr_calls_return_none :
    native_sparse_array trivialVerify none none none none none none
        (some [0, 1]) (some [0]) none none (some [5]) (some [2, 2]) =
      Except.ok none ∧
    native_sparse_array trivialVerify none none none none none none none none
        (some [0, 1]) (some [0]) (some [5]) (some [2, 2]) =
      Except.ok none := by
  exact ⟨rfl, rfl⟩

open TorchSparse in
/-- C6: when `data` alone is passed, `native_sparse_array` returns it
unchanged if it is a native sparse array and raises "not a sparse array"
otherwise; when the keyword arguments identify one explicit format, the
matching component consistency check decides the outcome — a failing check
raises before any tensor is constructed, a passing check is followed by the
branch's construction (none for BSC/BSR, whose branches build nothing). -/
theorem C6_validation_and_data_path (V : VerifyFns) (d : TorchTensor)
    (ci : List (List Int)) (cr co cc ri : List Int) (v : List Int)
    (ds : List Nat) :
    (native_sparse_array V (some d) none none none none none none none none
        none none none =
      if is_native_sparse_array d then Except.ok (some d)
      else Except.error "not a sparse array") ∧
    (native_sparse_array V none (some ci) none none none none none none none
        none (some v) (some ds) =
      if V.verify_coo ci v ds then Except.ok (some (sparse_coo_tensor ci v ds))
      else Except.error "invalid coo components") ∧
    (native_sparse_array V none none (some cr) (some co) none none none none
        none none (some v) (some ds) =
      if V.verify_csr cr co v ds then
        Except.ok (some (sparse_csr_tensor cr co v ds))
      else Except.error "invalid csr components") ∧
    (native_sparse_array V none none none none (some cc) (some ri) none none
        none none (some v) (some ds) =
      if V.verify_csc cc ri v ds then
        Except.ok (some (sparse_csc_tensor cc ri v ds))
      else Except.error "invalid csc components") ∧
    (native_sparse_array V none none none none none none (some cc) (some ri)
        none none (some v) (some ds) =
      if V.verify_bsc cc ri v ds then Except.ok none
      else Except.error "invalid bsc components") ∧
    (native_sparse_array V none none none none none none none none (some cr)
        (some co) (some v) (some ds) =
      if V.verify_bsr cr co v ds then Except.ok none
      else Except.error "invalid bsr components") :=
  ⟨rfl, rfl, rfl, rfl, rfl, rfl⟩

open TorchSparse in
/-- C7: `native_sparse_array_to_indices_values_and_shape` raises exactly when
the layout is none of the five sparse layouts, and for each sparse layout
returns the triple of that layout's index tensors, the values and the dense
shape, coalescing COO inputs first. -/
theorem C7_layout_dispatch (coalesce : TorchTensor → TorchTensor)
    (x : TorchTensor) :
    (native_sparse_array_to_indices_values_and_shape coalesce x =
      match x.layout with
      | Layout.sparse_coo =>
          Except.ok (IndicesDict.coo (coalesce x).coo_indices,
            (coalesce x).values, (coalesce x).size)
      | Layout.sparse_csr =>
          Except.ok (IndicesDict.csr x.crow_indices x.col_indices,
            x.values, x.size)
      | Layout.sparse_csc =>
          Except.ok (IndicesDict.csc x.ccol_indices x.row_indices,
            x.values, x.size)
      | Layout.sparse_bsc =>
          Except.ok (IndicesDict.bsc x.ccol_indices x.row_indices,
            x.values, x.size)
      | Layout.sparse_bsr =>
          Except.ok (IndicesDict.bsr x.crow_indices x.col_indices,
            x.values, x.size)
      | Layout.strided =>
          Except.error "not a sparse COO/CSR/CSC/BSC/BSR Tensor") ∧
    ((∃ e, native_sparse_array_to_indices_values_and_shape coalesce x =
        Except.error e) ↔
      x.layout ∉ [Layout.sparse_coo, Layout.sparse_csr, Layout.sparse_csc,
        Layout.sparse_bsc, Layout.sparse_bsr]) := by
  obtain ⟨l, cooi, crow, col, ccol, row, vals, sz⟩ := x
  cases l <;>
    simp [native_sparse_array_to_indices_values_and_shape]

open TorchSparse in
/-- C8: for a tensor whose layout is `torch.sparse_bsr` or `torch.sparse_bsc`
the recognizer `is_native_sparse_array` answers `false`, while
`native_sparse_array_to_indices_values_and_shape` in the same module accepts
and decomposes exactly those layouts. -/
theorem C8_recognizer_decomposer_disagree
    (coalesce : TorchTensor → TorchTensor) (x : TorchTensor)
    (h : x.layout = Layout.sparse_bsr ∨ x.layout = Layout.sparse_bsc) :
    is_native_sparse_array x = false ∧
    ∃ r, native_sparse_array_to_indices_values_and_shape coalesce x =
      Except.ok r := by
  rcases h with h | h
  · refine ⟨by simp [is_native_sparse_array, h],
      ⟨(IndicesDict.bsr x.crow_indices x.col_indices, x.values, x.size), ?_⟩⟩
    simp [native_sparse_array_to_indices_values_and_shape, h]
  · refine ⟨by simp [is_native_sparse_array, h],
      ⟨(IndicesDict.bsc x.ccol_indices x.row_indices, x.values, x.size), ?_⟩⟩
    simp [native_sparse_array_to_indices_values_and_shape, h]

open TorchSparse in
/-- Witness for C8 at a concrete BSR tensor and the identity coalescing. -/
theorem C8_recognizer_decomposer_disagree_witness :
    ((⟨Layout.sparse_bsr, [], [0], [0], [], [], [7], [2, 2]⟩ :
        TorchTensor).layout = Layout.sparse_bsr ∨
      (⟨Layout.sparse_bsr, [], [0], [0], [], [], [7], [2, 2]⟩ :
        TorchTensor).layout = Layout.sparse_bsc) ∧
    (is_native_sparse_array
        ⟨Layout.sparse_bsr, [], [0], [0], [], [], [7], [2, 2]⟩ = false ∧
      ∃ r, native_sparse_array_to_indices_values_and_shape (fun t => t)
          ⟨Layout.sparse_bsr, [], [0], [0], [], [], [7], [2, 2]⟩ =
        Except.ok r) :=
  ⟨Or.inl rfl,
    C8_recognizer_decomposer_disagree (fun t => t) _ (Or.inl rfl)⟩

/-- C4: the JAX backend's `all` and `any` return exactly the native
`jnp.all(x, axis, keepdims=keepdims)` and `jnp.any(x, axis, keepdims=keepdims)`
applied to the same arguments — the wrappers add and change nothing, for every
native reduction, array, axis specification and keepdims flag. -/
theorem C4_jax_all_any_pass_through {T A : Type}
    (jnp_all jnp_any : T → A → Bool → T) (x : T) (axis : A)
    (keepdims : Bool) :
    JaxBackend.all jnp_all x axis keepdims = jnp_all x axis keepdims ∧
    JaxBackend.any jnp_any x axis keepdims = jnp_any x axis keepdims :=
  ⟨rfl, rfl⟩

/-- C5: each of the seven unified convolution functions returns exactly the
result of calling the function of the same name on the module selected by
`current_framework` for `x`, with the same arguments, for every dispatcher,
input, filters, strides, padding, output shape, data format and dilations. -/
theorem C5_conv_dispatch_pass_through {T S : Type}
    (cur : T → Dispatch.Framework T S) (x filters : T) (strides : S)
    (padding : String) (output_shape : Option (List Nat))
    (data_format : String) (dilations : S) :
    Dispatch.conv1d cur x filters strides padding data_format dilations =
      (cur x).conv1d x filters strides padding data_format dilations ∧
    Dispatch.conv1d_transpose cur x filters strides padding output_shape
        data_format dilations =
      (cur x).conv1d_transpose x filters strides padding output_shape
        data_format dilations ∧
    Dispatch.conv2d cur x filters strides padding data_format dilations =
      (cur x).conv2d x filters strides padding data_format dilations ∧
    Dispatch.conv2d_transpose cur x filters strides padding output_shape
        data_format dilations =
      (cur x).conv2d_transpose x filters strides padding output_shape
        data_format dilations ∧
    Dispatch.depthwise_conv2d cur x filters strides padding data_format
        dilations =
      (cur x).depthwise_conv2d x filters strides padding data_format
        dilations ∧
    Dispatch.conv3d cur x filters strides padding data_format dilations =
      (cur x).conv3d x filters strides padding data_format dilations ∧
    Dispatch.conv3d_transpose cur x filters strides padding output_shape
        data_format dilations =
      (cur x).conv3d_transpose x filters strides padding output_shape
        data_format dilations :=
  ⟨rfl, rfl, rfl, rfl, rfl, rfl, rfl⟩

open IvyLayers in
/-- C9: with `prob = 0` and `scale = True`, dropout is the identity for every
draw of uniform samples in `[0, 1)` — no element satisfies `u i < 0` and the
scaling factor `1/(1-0)` is `1`; with `prob = 1` and `scale = True` the
scaling step's factor is the division `1 / 0` (its divisor `1 - prob`
vanishes). -/
theorem C9_dropout_prob_zero_identity {α : Type} [LinearOrderedField α]
    {ι : Type} (u x : ι → α) (hu : ∀ i, 0 ≤ u i) :
    dropout u x 0 true = x ∧
    dropout_scale_factor (1 : α) = 1 / 0 ∧ (1 : α) - 1 = 0 := by
  refine ⟨funext fun i => ?_, by simp [dropout_scale_factor], by ring⟩
  have hlt : ¬ u i < 0 := not_lt.mpr (hu i)
  simp [dropout, dropout_scale_factor, hlt]

open IvyLayers in
/-- Witness for C9 at a concrete one-element array and the constant draw
`1/2`. -/
theorem C9_dropout_prob_zero_identity_witness :
    (∀ i : Fin 1, (0 : ℚ) ≤ (fun _ : Fin 1 => (1 : ℚ) / 2) i) ∧
    (dropout (fun _ : Fin 1 => (1 : ℚ) / 2) (fun _ : Fin 1 => (5 : ℚ)) 0 true =
        (fun _ : Fin 1 => (5 : ℚ)) ∧
      dropout_scale_factor (1 : ℚ) = 1 / 0 ∧ (1 : ℚ) - 1 = 0) :=
  ⟨by norm_num,
    C9_dropout_prob_zero_identity (fun _ : Fin 1 => (1 : ℚ) / 2)
      (fun _ : Fin 1 => (5 : ℚ)) (by norm_num)⟩

open IvyLayers in
/-- C2: `scaled_dot_product_attention(q, k, v, scale)` equals the textbook
formula `softmax(scale * q·kᵀ, last axis) · v`, and with a boolean mask every
similarity entry whose mask entry is false is first replaced by the most
negative representable value of the similarity dtype (`-finfo_max`, i.e.
`finfo.min` of an IEEE dtype) before the softmax. -/
theorem C2_attention_matches_textbook {α : Type} [LinearOrderedField α]
    {b nq nk d : ℕ} (e : α → α) (finfo_max : α)
    (q : Fin b → Fin nq → Fin d → α) (k : Fin b → Fin nk → Fin d → α)
    (v : Fin b → Fin nk → Fin d → α) (scale : α) :
    scaled_dot_product_attention e finfo_max q k v scale none =
      attention_textbook e q k v scale ∧
    ∀ mk : Fin b → Fin nq → Fin nk → Bool,
      scaled_dot_product_attention e finfo_max q k v scale (some mk) =
        matmulBatched
          (softmax e (masked_fill mk (-finfo_max)
            (scalarMul scale (matmulBatched q (transposeLast2 k))))) v := by
  have hsim : (fun bi qi ki => einsum_qf_kf_to_qk q k bi qi ki * scale)
      = scalarMul scale (matmulBatched q (transposeLast2 k)) := by
    funext bi qi ki
    exact mul_comm (einsum_qf_kf_to_qk q k bi qi ki) scale
  have hmask : ∀ mk : Fin b → Fin nq → Fin nk → Bool,
      (fun bi qi ki => if !(mk bi qi ki) then -(1 : α) * finfo_max
          else einsum_qf_kf_to_qk q k bi qi ki * scale)
        = masked_fill mk (-finfo_max)
            (scalarMul scale (matmulBatched q (transposeLast2 k))) := by
    intro mk
    funext bi qi ki
    cases hmk : mk bi qi ki
    · simp [masked_fill, hmk, neg_one_mul]
    · simp [masked_fill, hmk, scalarMul, matmulBatched, transposeLast2,
        einsum_qf_kf_to_qk, mul_comm]
  refine ⟨?_, fun mk => ?_⟩
  · change einsum_qk_kf_to_qf
        (softmax e (fun bi qi ki => einsum_qf_kf_to_qk q k bi qi ki * scale))
        v = attention_textbook e q k v scale
    rw [hsim]
    rfl
  · change einsum_qk_kf_to_qf
        (softmax e (fun bi qi ki =>
          if !(mk bi qi ki) then -(1 : α) * finfo_max
          else einsum_qf_kf_to_qk q k bi qi ki * scale)) v = _
    rw [hmask mk]
    rfl

open IvyLayers in
/-- The source's unrolled loop over the precomputed, bias-added input-kernel
products computes exactly the standard per-step recurrence `lstm_spec`:
precomputing `matmul(x, kernel) + bias` for all timesteps and splitting the
fused `4*out` axis before the loop agrees with slicing the kernel per gate
inside each step. -/
theorem lstm_loop_eq_spec {α : Type} [LinearOrderedField α] {b n m : ℕ}
    (sig th : α → α) (kernel : Fin n → Fin (4 * m) → α)
    (Wh : Fin m → Fin (4 * m) → α) (biasf rbf : Fin (4 * m) → α)
    (x : List (Fin b → Fin n → α)) (h c : Fin b → Fin m → α) :
    lstm_loop sig th Wh rbf
        (x.map (fun xt => fun bi j =>
          (∑ fi, xt bi fi * kernel fi j) + biasf j)) h c =
      lstm_spec sig th kernel Wh biasf rbf x h c := by
  induction x generalizing h c with
  | nil => rfl
  | cons xt rest ih =>
      simp only [List.map_cons, lstm_loop, lstm_spec, ih]
      rfl

open IvyLayers in
/-- `lstm_loop_eq_spec` specialised to a nonempty slice list, with the head
slice's product written out — the form the unfolded `lstm_update` exposes
after its reshape succeeds. -/
theorem lstm_loop_eq_spec_cons {α : Type} [LinearOrderedField α] {b n m : ℕ}
    (sig th : α → α) (kernel : Fin n → Fin (4 * m) → α)
    (Wh : Fin m → Fin (4 * m) → α) (biasf rbf : Fin (4 * m) → α)
    (xt : Fin b → Fin n → α) (rest : List (Fin b → Fin n → α))
    (h c : Fin b → Fin m → α) :
    lstm_loop sig th Wh rbf
        ((fun bi j => (∑ fi, xt bi fi * kernel fi j) + biasf j) ::
          rest.map (fun xs => fun bi j =>
            (∑ fi, xs bi fi * kernel fi j) + biasf j)) h c =
      lstm_spec sig th kernel Wh biasf rbf (xt :: rest) h c :=
  lstm_loop_eq_spec sig th kernel Wh biasf rbf (xt :: rest) h c

open IvyLayers in
/-- `lstm_spec` emits one hidden state per time slice. -/
theorem lstm_spec_length {α : Type} [LinearOrderedField α] {b n m : ℕ}
    (sig th : α → α) (kernel : Fin n → Fin (4 * m) → α)
    (Wh : Fin m → Fin (4 * m) → α) (biasf rbf : Fin (4 * m) → α)
    (x : List (Fin b → Fin n → α)) (h c : Fin b → Fin m → α) :
    (lstm_spec sig th kernel Wh biasf rbf x h c).1.length = x.length := by
  induction x generalizing h c with
  | nil => rfl
  | cons xt rest ih => simp [lstm_spec, ih]

open IvyLayers in
/-- C3: for a nonempty time axis, `lstm_update` computes the standard LSTM
recurrence unrolled over time — per step the sigmoid/tanh gate formulas with
the per-gate slices of the fused kernels and optional biases — and returns
every hidden state along the time axis together with the last step's cell
state (the pair computed by `lstm_spec`). -/
theorem C3_lstm_computes_standard_recurrence {α : Type}
    [LinearOrderedField α] {b n m : ℕ} (sig th : α → α)
    (x : List (Fin b → Fin n → α)) (init_h init_c : Fin b → Fin m → α)
    (kernel : Fin n → Fin (4 * m) → α)
    (recurrent_kernel : Fin m → Fin (4 * m) → α)
    (bias recurrent_bias : Option (Fin (4 * m) → α)) (hx : x ≠ []) :
    lstm_update sig th x init_h init_c kernel recurrent_kernel bias
        recurrent_bias =
      Except.ok (lstm_spec sig th kernel recurrent_kernel
        (fun j => match bias with | some bb => bb j | none => 0)
        (fun j => match recurrent_bias with | some rb => rb j | none => 0)
        x init_h init_c) := by
  cases x with
  | nil => exact absurd rfl hx
  | cons xt rest =>
      simp only [lstm_update, List.map_cons, ivy_reshape_time_major,
        lstm_loop_eq_spec_cons]
      simp [lstm_spec, ivy_concat]

open IvyLayers in
/-- Witness for C3 at a concrete one-step, one-unit input over `ℚ`. -/
theorem C3_lstm_computes_standard_recurrence_witness :
    ([fun _ _ => (1 : ℚ)] : List (Fin 1 → Fin 1 → ℚ)) ≠ [] ∧
    @lstm_update ℚ _ 1 1 1 (fun a => a) (fun a => a)
        [fun _ _ => (1 : ℚ)] (fun _ _ => 0) (fun _ _ => 0) (fun _ _ => 0)
        (fun _ _ => 0) none none =
      Except.ok (@lstm_spec ℚ _ 1 1 1 (fun a => a) (fun a => a)
        (fun _ _ => 0) (fun _ _ => 0)
        (fun j => match (none : Option (Fin (4 * 1) → ℚ)) with
          | some bb => bb j | none => 0)
        (fun j => match (none : Option (Fin (4 * 1) → ℚ)) with
          | some rb => rb j | none => 0)
        [fun _ _ => (1 : ℚ)] (fun _ _ => 0) (fun _ _ => 0)) :=
  ⟨List.cons_ne_nil _ _,
    @C3_lstm_computes_standard_recurrence ℚ _ 1 1 1 (fun a => a)
      (fun a => a) [fun _ _ => (1 : ℚ)] (fun _ _ => 0) (fun _ _ => 0)
      (fun _ _ => 0) (fun _ _ => 0) none none (List.cons_ne_nil _ _)⟩

open IvyLayers in
/-- Counterexample to C10 as stated: at `t = 0` the function does not
attempt to concatenate an empty list of hidden states — it fails earlier,
at `ivy.reshape(..., batch_shape + [timesteps, -1])` on the 0-element
matmul result, whose `-1` dimension is ambiguous — so the returned error is
the reshape error, not the concatenation error. -/
theorem C10_t_zero_fails_at_reshape_not_concat :
    @lstm_update ℚ _ 1 1 1 (fun a => a) (fun a => a) []
        (fun _ _ => 0) (fun _ _ => 0) (fun _ _ => 0) (fun _ _ => 0)
        none none =
      Except.error
        "cannot reshape a 0-element tensor with ambiguous dimension -1" ∧
    @lstm_update ℚ _ 1 1 1 (fun a => a) (fun a => a) []
        (fun _ _ => 0) (fun _ _ => 0) (fun _ _ => 0) (fun _ _ => 0)
        none none ≠
      Except.error "cannot concatenate an empty list of arrays" := by
  refine ⟨rfl, fun h => ?_⟩
  have h1 : (Except.error
        "cannot reshape a 0-element tensor with ambiguous dimension -1" :
      Except String (List (Fin 1 → Fin 1 → ℚ) × (Fin 1 → Fin 1 → ℚ))) =
      Except.error "cannot concatenate an empty list of arrays" := h
  injection h1 with hs
  exact absurd hs (by decide)

open IvyLayers in
/-- C10 (amended): `lstm_update` iterates once per slice of the input along
the time axis — the returned hidden-state tensor has exactly `t` time
entries and the returned cell state is the one produced by the final
iteration — and when `t = 0` no well-formed result is returned: the
function fails already at the reshape of the 0-element matmul result to
`batch_shape + [timesteps, -1]`, whose `-1` dimension is ambiguous, before
any concatenation is attempted. -/
theorem C10_lstm_iterates_once_per_timestep {α : Type}
    [LinearOrderedField α] {b n m : ℕ} (sig th : α → α)
    (x : List (Fin b → Fin n → α)) (init_h init_c : Fin b → Fin m → α)
    (kernel : Fin n → Fin (4 * m) → α)
    (recurrent_kernel : Fin m → Fin (4 * m) → α)
    (bias recurrent_bias : Option (Fin (4 * m) → α)) :
    (x = [] → lstm_update sig th x init_h init_c kernel recurrent_kernel
        bias recurrent_bias =
      Except.error
        "cannot reshape a 0-element tensor with ambiguous dimension -1") ∧
    (x ≠ [] → ∃ hts ct, lstm_update sig th x init_h init_c kernel
        recurrent_kernel bias recurrent_bias = Except.ok (hts, ct) ∧
      hts.length = x.length ∧
      ct = (lstm_spec sig th kernel recurrent_kernel
        (fun j => match bias with | some bb => bb j | none => 0)
        (fun j => match recurrent_bias with | some rb => rb j | none => 0)
        x init_h init_c).2) := by
  constructor
  · rintro rfl
    rfl
  · intro hx
    refine ⟨(lstm_spec sig th kernel recurrent_kernel
        (fun j => match bias with | some bb => bb j | none => 0)
        (fun j => match recurrent_bias with | some rb => rb j | none => 0)
        x init_h init_c).1,
      (lstm_spec sig th kernel recurrent_kernel
        (fun j => match bias with | some bb => bb j | none => 0)
        (fun j => match recurrent_bias with | some rb => rb j | none => 0)
        x init_h init_c).2, ?_, lstm_spec_length _ _ _ _ _ _ _ _ _, rfl⟩
    cases x with
    | nil => exact absurd rfl hx
    | cons xt rest =>
        simp only [lstm_update, List.map_cons, ivy_reshape_time_major,
          lstm_loop_eq_spec_cons]
        simp [lstm_spec, ivy_concat]

open IvyLayers in
/-- Witness for C10: the empty-input case at concrete parameters over `ℚ`,
and the one-step case through the existential. -/
theorem C10_lstm_iterates_once_per_timestep_witness :
    @lstm_update ℚ _ 1 1 1 (fun a => a) (fun a => a) []
        (fun _ _ => 0) (fun _ _ => 0) (fun _ _ => 0) (fun _ _ => 0)
        none none =
      Except.error
        "cannot reshape a 0-element tensor with ambiguous dimension -1" ∧
    (∃ hts ct, @lstm_update ℚ _ 1 1 1 (fun a => a) (fun a => a)
        [fun _ _ => (1 : ℚ)]
        (fun _ _ => 0) (fun _ _ => 0) (fun _ _ => 0) (fun _ _ => 0)
        none none = Except.ok (hts, ct) ∧
      hts.length = ([fun _ _ => (1 : ℚ)] :
        List (Fin 1 → Fin 1 → ℚ)).length ∧
      ct = (@lstm_spec ℚ _ 1 1 1 (fun a => a) (fun a => a)
        (fun _ _ => 0) (fun _ _ => 0)
        (fun j => match (none : Option (Fin (4 * 1) → ℚ)) with
          | some bb => bb j | none => 0)
        (fun j => match (none : Option (Fin (4 * 1) → ℚ)) with
          | some rb => rb j | none => 0)
        [fun _ _ => (1 : ℚ)] (fun _ _ => 0) (fun _ _ => 0)).2) :=
  ⟨(@C10_lstm_iterates_once_per_timestep ℚ _ 1 1 1 (fun a => a)
      (fun a => a) [] (fun _ _ => 0) (fun _ _ => 0)
      (fun _ _ => 0) (fun _ _ => 0) none none).1 rfl,
    (@C10_lstm_iterates_once_per_timestep ℚ _ 1 1 1 (fun a => a)
      (fun a => a) [fun _ _ => (1 : ℚ)] (fun _ _ => 0) (fun _ _ => 0)
      (fun _ _ => 0) (fun _ _ => 0) none none).2 (List.cons_ne_nil _ _)⟩
